import Mathlib

set_option maxHeartbeats 1000000

/-!
Verification development for the generic data-access engine of the
PruebaRestService repository (Python).  The definitions below are a shallow
embedding of the engine's source files:

* `core/dao/mysqldaotools.py`  — clause translation and SQL fragment rendering
  (the module the specification's translation algorithm describes);
* `core/dao/basedao.py`        — connection registry, transaction primitives,
  INSERT/UPDATE statement assembly;
* `core/service/service.py`    — the transaction envelope
  (`BaseService.__start_transaction`);
* `core/model/modeldefinition.py` — entity metadata and the value-rendering
  methods used by `BaseDao.insert` / `BaseDao.update`;
* `impl/model/cliente.py`, `impl/model/tipocliente.py`, `impl/model/usuario.py`
  — the concrete entity metadata of the repository.

Python strings are modelled by `String`, Python `None`-able attributes by
`Option`, Python exceptions by an explicit `PyErr` error type threaded through
`Except`, and the mutable connection registry by an explicit state record.
-/

namespace PruebaRest

/-- Auxiliary for `pySplit`: splits a character list at every occurrence of the
separator, keeping empty pieces (Python `str.split(sep)` semantics). -/
def splitCharAux (sep : Char) : List Char → List Char → List (List Char)
  | [], acc => [acc.reverse]
  | c :: cs, acc =>
    if c = sep then acc.reverse :: splitCharAux sep cs []
    else splitCharAux sep cs (c :: acc)

/-- Python `s.split(sep)` for a one-character separator: returns `[s]` when the
separator does not occur, and keeps empty pieces. -/
def pySplit (sep : Char) (s : String) : List String :=
  (splitCharAux sep s.data []).map (fun cs => String.mk cs)

/-- The character used by the translator's `split(".")` calls. -/
def dotChar : Char := '.'

/-- Python `sep.join(xs)`. -/
def pyJoin (sep : String) : List String → String
  | [] => ""
  | [x] => x
  | x :: y :: xs => x ++ sep ++ pyJoin sep (y :: xs)

/-- Python `s.strip()`: removes whitespace from both ends. -/
def pyStrip (s : String) : String :=
  String.mk (((s.data.dropWhile Char.isWhitespace).reverse.dropWhile Char.isWhitespace).reverse)

/-- Python `bytes.decode("latin1")`: every byte becomes the character with the
same code point (Latin-1 is the identity on 0..255). -/
def latin1Decode (bs : List Nat) : String :=
  String.mk (bs.map Char.ofNat)

/-- Rendering of an `Option String` attribute inside a Python f-string:
`None` prints as the text `None`. -/
def pyOptStr : Option String → String
  | some s => s
  | none => "None"

/-- Python exceptions observable in the embedded code.  `customException`
models `CustomException(translate(key, None, *args))` from
`core/exception/exceptionhandler.py`: the i18n key together with the
positional arguments interpolated into the message, so that a statement about
"the message names X" becomes a statement about the argument list. -/
inductive PyErr where
  | customException (i18nKey : String) (args : List String)
  | attributeError
  | keyError
deriving DecidableEq, Repr

/-- The Python-side type of a field: either a scalar class (`int`, `str`,
`bytes`, `Decimal`, ...) or a subclass of `BaseEntity`, referenced by class
name and resolved through the schema. -/
inductive PyType where
  | scalarTy (name : String)
  | entityTy (className : String)
deriving DecidableEq, Repr

/-- Models `issubclass(t, BaseEntity)`. -/
def isBaseEntitySubclass : PyType → Bool
  | .scalarTy _ => false
  | .entityTy _ => true

/-- `FieldDefinition` from `core/model/modeldefinition.py` (the attributes the
engine reads; `length_in_db`, `range_in_db` and `default_value` are never
consulted by the translated code and are omitted). -/
structure FieldDefinition where
  field_type : PyType
  name_in_db : String
  is_primary_key : Bool := false
  is_mandatory : Bool := false
  referenced_table_name : Option String := none
deriving DecidableEq, Repr

/-- The metadata a `BaseEntity` subclass exposes: its class name (`__name__`),
`get_id_field_name()` and `get_model_dict()` (an insertion-ordered mapping). -/
structure EntityType where
  className : String
  id_field_name : String
  model_dict : List (String × FieldDefinition)
deriving DecidableEq, Repr

/-- The set of loaded `BaseEntity` subclasses, keyed by class name; stands for
Python's runtime class objects when the code navigates `field_type`. -/
abbrev Schema := List (String × EntityType)

/-- Python `dict.get(k)` on a string-keyed mapping (newest binding first, which
realises overwrite-on-assignment). -/
def dictGet {α : Type} (d : List (String × α)) (k : String) : Option α :=
  (d.find? (fun p => p.1 == k)).map (fun p => p.2)

/-- Python `d[k] = v` (overwrite semantics together with `dictGet`). -/
def dictSet {α : Type} (d : List (String × α)) (k : String) (v : α) : List (String × α) :=
  (k, v) :: d

/-- `field_type.get_model_dict()`: succeeds only when the field's type is a
`BaseEntity` subclass known to the schema; anything else is Python's
`AttributeError`. -/
def classModelDict (schema : Schema) : PyType → Option EntityType
  | .scalarTy _ => none
  | .entityTy c => dictGet schema c

/-- `BaseEntity.get_id_field_name_in_db` (`modeldefinition.py` lines 73-79):
looks the id field up in the model dict and returns its database name; a
missing id entry would be Python's `AttributeError` on `None.name_in_db`. -/
def get_id_field_name_in_db (e : EntityType) : Except PyErr String :=
  match dictGet e.model_dict e.id_field_name with
  | some fd => .ok fd.name_in_db
  | none => .error .attributeError

/-- `EnumFilterTypes` from `core/dao/querytools.py`. -/
inductive EnumFilterTypes where
  | EQUALS | NOT_EQUALS | LIKE | NOT_LIKE | IN | NOT_IN
  | LESS_THAN | LESS_THAN_OR_EQUALS | GREATER_THAN | GREATER_THAN_OR_EQUALS | BETWEEN
deriving DecidableEq, Repr

/-- The `filter_keyword` property of `EnumFilterTypes`. -/
def EnumFilterTypes.filter_keyword : EnumFilterTypes → String
  | .EQUALS => "="
  | .NOT_EQUALS => "<>"
  | .LIKE => "LIKE"
  | .NOT_LIKE => "NOT LIKE"
  | .IN => "IN"
  | .NOT_IN => "NOT IN"
  | .LESS_THAN => "<"
  | .LESS_THAN_OR_EQUALS => "<="
  | .GREATER_THAN => ">"
  | .GREATER_THAN_OR_EQUALS => ">="
  | .BETWEEN => "BETWEEN"

/-- `EnumOperatorTypes` from `querytools.py`. -/
inductive EnumOperatorTypes where
  | AND | OR
deriving DecidableEq, Repr

/-- The `operator_keyword` property of `EnumOperatorTypes`. -/
def EnumOperatorTypes.operator_keyword : EnumOperatorTypes → String
  | .AND => "AND"
  | .OR => "OR"

/-- `EnumOrderByTypes` from `querytools.py`. -/
inductive EnumOrderByTypes where
  | ASC | DESC
deriving DecidableEq, Repr

/-- The `order_by_keyword` property of `EnumOrderByTypes`. -/
def EnumOrderByTypes.order_by_keyword : EnumOrderByTypes → String
  | .ASC => "ASC"
  | .DESC => "DESC"

/-- `EnumJoinTypes` from `querytools.py`. -/
inductive EnumJoinTypes where
  | INNER_JOIN | LEFT_JOIN | RIGHT_JOIN
deriving DecidableEq, Repr

/-- The `join_keyword` property of `EnumJoinTypes`. -/
def EnumJoinTypes.join_keyword : EnumJoinTypes → String
  | .INNER_JOIN => "INNER JOIN"
  | .LEFT_JOIN => "LEFT JOIN"
  | .RIGHT_JOIN => "RIGHT JOIN"

/-- Python runtime values flowing through the engine: entity attribute values
and filter comparison objects.  `pyEntity` carries the runtime class metadata
and the instance's attribute mapping. -/
inductive PyVal where
  | pyNone
  | pyInt (i : Int)
  | pyStr (s : String)
  | pyBytes (bs : List Nat)
  | pyList (elems : List PyVal)
  | pyEntity (meta : EntityType) (fields : List (String × PyVal))

instance : Inhabited PyVal := ⟨.pyNone⟩

/-- Python `repr` of a scalar value, used for the elements when a list is
stringified.  (Nested lists and entity objects never reach this position in
the embedded code paths; their rendering is approximated.) -/
def pyScalarRepr : PyVal → String
  | .pyNone => "None"
  | .pyInt i => toString i
  | .pyStr s => "\x27" ++ s ++ "\x27"
  | .pyBytes bs => "b\x27" ++ latin1Decode bs ++ "\x27"
  | .pyList _ => "[...]"
  | .pyEntity meta _ => "<" ++ meta.className ++ " object>"

/-- Python `str(v)` as used inside the engine's f-strings: `None` prints as
`None`, integers in decimal, strings as themselves. -/
def pyStrOf : PyVal → String
  | .pyNone => "None"
  | .pyInt i => toString i
  | .pyStr s => s
  | .pyBytes bs => "b\x27" ++ latin1Decode bs ++ "\x27"
  | .pyList elems => "[" ++ pyJoin ", " (elems.map pyScalarRepr) ++ "]"
  | .pyEntity meta _ => "<" ++ meta.className ++ " object>"

/-- Models `isinstance(v, str)`. -/
def isPyStr : PyVal → Bool
  | .pyStr _ => true
  | _ => false

/-- One clause object.  The five clause classes of `core/dao/querytools.py`
(`FieldClause`, `FilterClause`, `OrderByClause`, `GroupByClause`,
`JoinClause`) are duck-typed through the same translation code, which reads
and writes the union of their attributes; unused attributes keep their
defaults.  Attributes that Python may hold as `None` are `Option`s.
`start_parenthesis`/`end_parenthesis` are `Nat` with `0` for Python's
`None` (both are falsy and render zero parentheses). -/
structure Clause where
  field_name : Option String := none
  table_alias : Option String := none
  field_alias : Option String := none
  filter_type : Option EnumFilterTypes := none
  object_to_compare : PyVal := .pyNone
  operator_type : EnumOperatorTypes := .AND
  start_parenthesis : Nat := 0
  end_parenthesis : Nat := 0
  order_by_type : Option EnumOrderByTypes := none
  join_type : Option EnumJoinTypes := none
  table_name : Option String := none
  parent_table : Option String := none
  parent_table_referenced_column_name : Option String := none
  id_column_name : Option String := none

/-- The `clause_type` argument of `resolve_translation_of_clauses`. -/
inductive ClauseType where
  | fieldC | filterC | orderByC | groupByC | joinC
deriving DecidableEq, Repr

/-- CPython's default `repr` of a clause object prints only the class and the
object address; it carries no attribute values, which matters for which names
appear in a `query_translate` fault message. -/
def clauseRepr (_ : Clause) : String := "<clause object>"

/-- `_field_alias_separator` (`mysqldaotools.py` line 62). -/
def field_alias_separator : String := "$123$"

/-- `_join_alias_separator` (`mysqldaotools.py` line 64). -/
def join_alias_separator : String := "$456$"

/-- The local variables mutated by the per-segment loop of
`resolve_translation_of_clauses` (`mysqldaotools.py` lines 296-350):
`field_definition`, `join_parent_table_dict` (whose values are
`referenced_table_name` attributes, hence possibly Python `None`),
`new_clause.parent_table`, `new_table_alias` and `entity_type`. -/
structure SegState where
  field_definition : Option FieldDefinition := none
  join_parent_table_dict : List (String × Option String) := []
  parent_table : Option String := none
  new_table_alias : Option String := none
  entity_type : Option EntityType := none

/-- One iteration of the loop `for idx, val in enumerate(field_name_array)`
(`mysqldaotools.py` lines 300-350), for a clause `f` whose path split is
`segs` with final index `lastIdx`.  The trailing `try`-guarded store into
`join_parent_table_dict` turns a failed lookup (`field_definition` being
`None`) into the `unknown_field` `CustomException` naming `val` and
`field_name_array[idx - 1]` — which, through Python's negative indexing, is
the LAST segment when `idx = 0`. -/
def segStep (schema : Schema) (base : EntityType) (is_join : Bool)
    (f : Clause) (segs : List String) (lastIdx : Nat) (idx : Nat) (val : String)
    (st : SegState) : Except PyErr SegState := do
  let st ←
    if idx == 0 then
      -- the first segment is a field of the DAO's own entity class
      pure {st with field_definition := dictGet base.model_dict val}
    else if idx < lastIdx then
      -- intermediate segments descend through field_type.get_model_dict()
      match st.field_definition with
      | none => Except.error .attributeError
      | some fd =>
        match classModelDict schema fd.field_type with
        | none => Except.error .attributeError
        | some ety => pure {st with field_definition := dictGet ety.model_dict val}
    else
      -- last index (lines 309-341)
      if is_join then
        match st.field_definition with
        | none => Except.error .attributeError
        | some fd =>
          match classModelDict schema fd.field_type with
          | none => Except.error .attributeError
          | some ety =>
            let fd2 := dictGet ety.model_dict val
            -- new_clause.parent_table = parent_table if not None else
            --   join_parent_table_dict[field_name_array[last - idx]]  (lines 326-327)
            let parent ←
              if f.parent_table.isSome then pure f.parent_table
              else
                match dictGet st.join_parent_table_dict (segs.getD (lastIdx - idx) "") with
                | some stored => pure stored
                | none => Except.error .keyError
            -- new_table_alias: all the segments, separator-joined (lines 334-335)
            let alias0 := if f.table_alias.isSome then f.table_alias
                          else some (pyJoin join_alias_separator segs)
            pure {st with field_definition := fd2, parent_table := parent,
                          new_table_alias := alias0}
      else
        -- non-join: alias over all but the last segment (lines 334-335), then
        -- the issubclass-guarded descent into the final entity (lines 339-341)
        let alias0 := if f.table_alias.isSome then f.table_alias
                      else some (pyJoin join_alias_separator (segs.take lastIdx))
        match st.field_definition with
        | none => Except.error .attributeError
        | some fd =>
          if isBaseEntitySubclass fd.field_type then
            match classModelDict schema fd.field_type with
            | none => Except.error .attributeError
            | some ety =>
              pure {st with new_table_alias := alias0, entity_type := some ety,
                            field_definition := dictGet ety.model_dict val}
          else
            pure {st with new_table_alias := alias0}
  -- try: join_parent_table_dict[val] = field_definition.referenced_table_name
  -- except AttributeError: raise CustomException(unknown_field, val, segs[idx-1])
  match st.field_definition with
  | some fd =>
    pure {st with join_parent_table_dict :=
                    dictSet st.join_parent_table_dict val fd.referenced_table_name}
  | none =>
    Except.error (.customException "i18n_base_commonError_unknown_field"
      [val, segs.getD (if idx == 0 then lastIdx else idx - 1) ""])

/-- Driver of the segment loop: runs `segStep` over the remaining segments,
starting at index `idx`. -/
def segLoop (schema : Schema) (base : EntityType) (is_join : Bool)
    (f : Clause) (segs : List String) (lastIdx : Nat) :
    Nat → List String → SegState → Except PyErr SegState
  | _, [], st => .ok st
  | idx, val :: rest, st =>
    match segStep schema base is_join f segs lastIdx idx val st with
    | .error e => .error e
    | .ok st2 => segLoop schema base is_join f segs lastIdx (idx + 1) rest st2

/-- The mutable dictionaries threaded through a translation call:
`join_alias_table_name` (alias → (db field name, nesting path, entity type),
filled for `FieldClause`s) and `join_alias_dict` (translated table name →
table alias, filled for `JoinClause`s; its key is the `table_name` attribute,
which Python may hold as `None`). -/
structure TransState where
  join_alias_table_name : List (String × (Option String × Option String × Option EntityType)) := []
  join_alias_dict : List (Option String × String) := []

/-- Lookup in `join_alias_dict`, whose keys are possibly-`None` table names. -/
def jadGet (d : List (Option String × String)) (k : Option String) : Option String :=
  (d.find? (fun p => p.1 == k)).map (fun p => p.2)

/-- The body of `resolve_translation_of_clauses` for ONE clause
(`mysqldaotools.py` lines 281-428): `new_clause = copy.deepcopy(f)` followed
by the segment walk, the join-specific defaulting, the final error check and
the alias assignments.  Returns the translated clause together with the
updated dictionaries. -/
def translate_clause (clause_type : ClauseType) (schema : Schema) (base : EntityType)
    (table_db_name : String) (ts : TransState) (f : Clause) :
    Except PyErr (Clause × TransState) := do
  let is_join := clause_type == ClauseType.joinC
  -- field_name_array = (table_name if join else field_name).split(".")
  let rawName ←
    match (if is_join then f.table_name else f.field_name) with
    | some s => pure s
    | none => Except.error .attributeError
  let segs := pySplit dotChar rawName
  let lastIdx := segs.length - 1
  let st ←
    if lastIdx > 0 then
      segLoop schema base is_join f segs lastIdx 0 segs {}
    else
      -- single-segment branch (lines 351-368)
      let fd := dictGet base.model_dict rawName
      if is_join then
        pure {field_definition := fd,
              parent_table := if f.parent_table.isSome then f.parent_table
                              else some table_db_name : SegState}
      else
        if fd.isNone then
          Except.error (.customException "i18n_base_commonError_unknown_field"
            [pyOptStr f.field_name, base.className])
        else
          pure {field_definition := fd,
                new_table_alias := if f.table_alias.isSome then f.table_alias
                                   else some table_db_name,
                entity_type := some base : SegState}
  -- the deep copy, carrying the parent_table mutation done inside the loop
  let nc := if is_join then {f with parent_table := st.parent_table} else f
  -- join-specific part (lines 370-391)
  let (nc, st) ←
    if is_join then
      match st.field_definition with
      | some fd => do
        let nc := {nc with table_name := fd.referenced_table_name}
        let nta := if st.new_table_alias.isNone then
                     (if f.table_alias.isSome then f.table_alias else some (segs.getLastD ""))
                   else st.new_table_alias
        let nc ←
          if nc.id_column_name.isNone then
            if isBaseEntitySubclass fd.field_type then
              match classModelDict schema fd.field_type with
              | none => Except.error .attributeError
              | some ety =>
                match get_id_field_name_in_db ety with
                | .error e => Except.error e
                | .ok idDb => pure {nc with id_column_name := some idDb}
            else
              Except.error (.customException "i18n_base_commonError_query_translate"
                [clauseRepr nc])
          else pure nc
        let nc := if nc.parent_table_referenced_column_name.isNone then
                    {nc with parent_table_referenced_column_name := some fd.name_in_db}
                  else nc
        pure (nc, {st with new_table_alias := nta})
      | none => pure (nc, st)
    else pure (nc, st)
  -- final error check and common assignments (lines 393-428)
  match st.field_definition, st.new_table_alias with
  | some fd, some nta =>
    if clause_type == ClauseType.fieldC && st.entity_type.isNone then
      Except.error (.customException "i18n_base_commonError_query_translate" [clauseRepr nc])
    else
      let nc := {nc with field_name := some fd.name_in_db, table_alias := some nta}
      if is_join then
        -- join_alias_dict[table_name] = table_alias, first occurrence kept
        let ts := if (jadGet ts.join_alias_dict nc.table_name).isNone then
                    {ts with join_alias_dict := (nc.table_name, nta) :: ts.join_alias_dict}
                  else ts
        pure (nc, ts)
      else
        if clause_type == ClauseType.fieldC then
          -- field alias and the join_alias_table_name record (lines 412-425)
          let fAlias := pyJoin field_alias_separator (pySplit dotChar nta)
                          ++ field_alias_separator ++ segs.getLastD ""
          let nc := {nc with field_alias := some fAlias}
          let entry := (nc.field_name,
                        (if lastIdx > 0 then some (pyJoin "." (segs.take lastIdx)) else none),
                        st.entity_type)
          pure (nc, {ts with join_alias_table_name :=
                               dictSet ts.join_alias_table_name fAlias entry})
        else pure (nc, ts)
  | _, _ =>
    Except.error (.customException "i18n_base_commonError_query_translate" [clauseRepr nc])

/-- `resolve_translation_of_clauses` (`mysqldaotools.py` lines 247-430): folds
`translate_clause` over the clause list, threading the dictionaries and
collecting the translated clauses. -/
def resolve_translation_of_clauses (clause_type : ClauseType) (schema : Schema)
    (base : EntityType) (table_db_name : String) :
    List Clause → TransState → Except PyErr (List Clause × TransState)
  | [], ts => .ok ([], ts)
  | f :: fs, ts =>
    match translate_clause clause_type schema base table_db_name ts f with
    | .error e => .error e
    | .ok (nc, ts2) =>
      match resolve_translation_of_clauses clause_type schema base table_db_name fs ts2 with
      | .error e => .error e
      | .ok (ncs, ts3) => .ok (nc :: ncs, ts3)

/-- `resolve_translation_of_joins` (`mysqldaotools.py` lines 217-244):
translates the join list with a fresh `join_alias_dict`, then rewrites every
translated clause whose `parent_table` occurs as a key of that dictionary to
the alias recorded there. -/
def resolve_translation_of_joins (schema : Schema) (base : EntityType)
    (table_db_name : String) (clauses_list : List Clause) : Except PyErr (List Clause) :=
  match resolve_translation_of_clauses ClauseType.joinC schema base table_db_name
          clauses_list {} with
  | .error e => .error e
  | .ok (translated, ts) =>
    .ok (translated.map (fun c =>
      match jadGet ts.join_alias_dict c.parent_table with
      | some a => {c with parent_table := some a}
      | none => c))

/-! Concrete entity metadata of the repository (`impl/model/usuario.py`,
`impl/model/tipocliente.py`, `impl/model/cliente.py`). -/

/-- `Usuario.__model_dict` and `get_id_field_name`. -/
def usuarioEntity : EntityType :=
  { className := "Usuario", id_field_name := "usuario_id",
    model_dict :=
      [("usuario_id", {field_type := .scalarTy "int", name_in_db := "id",
                       is_primary_key := true, is_mandatory := true}),
       ("username", {field_type := .scalarTy "str", name_in_db := "username",
                     is_mandatory := true}),
       ("password", {field_type := .scalarTy "bytes", name_in_db := "password",
                     is_mandatory := true})] }

/-- `TipoCliente.__model_dict` and `get_id_field_name`. -/
def tipoClienteEntity : EntityType :=
  { className := "TipoCliente", id_field_name := "tipo_cliente_id",
    model_dict :=
      [("tipo_cliente_id", {field_type := .scalarTy "int", name_in_db := "id",
                            is_primary_key := true, is_mandatory := true}),
       ("codigo", {field_type := .scalarTy "str", name_in_db := "codigo", is_mandatory := true}),
       ("descripcion", {field_type := .scalarTy "str", name_in_db := "descripcion",
                        is_mandatory := true}),
       ("usuario_creacion", {field_type := .entityTy "Usuario", name_in_db := "usuariocreacionid",
                             referenced_table_name := some "usuarios"}),
       ("usuario_ult_mod", {field_type := .entityTy "Usuario", name_in_db := "usuarioultmodid",
                            referenced_table_name := some "usuarios"})] }

/-- `Cliente.__model_dict` and `get_id_field_name`. -/
def clienteEntity : EntityType :=
  { className := "Cliente", id_field_name := "cliente_id",
    model_dict :=
      [("cliente_id", {field_type := .scalarTy "int", name_in_db := "id",
                       is_primary_key := true, is_mandatory := true}),
       ("codigo", {field_type := .scalarTy "str", name_in_db := "codigo", is_mandatory := true}),
       ("nombre", {field_type := .scalarTy "str", name_in_db := "nombre", is_mandatory := true}),
       ("apellidos", {field_type := .scalarTy "str", name_in_db := "apellidos"}),
       ("saldo", {field_type := .scalarTy "Decimal", name_in_db := "saldo", is_mandatory := true}),
       ("tipo_cliente", {field_type := .entityTy "TipoCliente", name_in_db := "tipoclienteid",
                         is_mandatory := true, referenced_table_name := some "tiposcliente"}),
       ("usuario_creacion", {field_type := .entityTy "Usuario", name_in_db := "usuariocreacionid",
                             referenced_table_name := some "usuarios"}),
       ("usuario_ult_mod", {field_type := .entityTy "Usuario", name_in_db := "usuarioultmodid",
                            referenced_table_name := some "usuarios"})] }

/-- The loaded entity classes of the repository. -/
def repoSchema : Schema :=
  [("Usuario", usuarioEntity), ("TipoCliente", tipoClienteEntity), ("Cliente", clienteEntity)]

/-! A synthetic schema with three relation levels (the repository's own model
stops at two).  Entity `A` (table `ta`) has a relation field `b` to entity `B`
(table `tb`), `B` has `c` to `C` (table `tc`) and `C` has `d` to `D`
(table `td`); every entity also has a scalar column.  It instantiates the
translation algorithm exactly as a deeper production schema would. -/

/-- Synthetic leaf entity `D`. -/
def dEntity : EntityType :=
  { className := "D", id_field_name := "d_id",
    model_dict := [("d_id", {field_type := .scalarTy "int", name_in_db := "id",
                             is_primary_key := true})] }

/-- Synthetic entity `C` with relation `d` to `D`. -/
def cEntity : EntityType :=
  { className := "C", id_field_name := "c_id",
    model_dict := [("c_id", {field_type := .scalarTy "int", name_in_db := "id",
                             is_primary_key := true}),
                   ("d", {field_type := .entityTy "D", name_in_db := "d_fk",
                          referenced_table_name := some "td"})] }

/-- Synthetic entity `B` with relation `c` to `C`. -/
def bEntity : EntityType :=
  { className := "B", id_field_name := "b_id",
    model_dict := [("b_id", {field_type := .scalarTy "int", name_in_db := "id",
                             is_primary_key := true}),
                   ("c", {field_type := .entityTy "C", name_in_db := "c_fk",
                          referenced_table_name := some "tc"})] }

/-- Synthetic base entity `A` with relation `b` to `B`. -/
def aEntity : EntityType :=
  { className := "A", id_field_name := "a_id",
    model_dict := [("a_id", {field_type := .scalarTy "int", name_in_db := "id",
                             is_primary_key := true}),
                   ("b", {field_type := .entityTy "B", name_in_db := "b_fk",
                          referenced_table_name := some "tb"})] }

/-- The synthetic three-level schema. -/
def deepSchema : Schema :=
  [("A", aEntity), ("B", bEntity), ("C", cEntity), ("D", dEntity)]

/-- A `JoinClause` as built by a caller that supplies only the target path and
the join type (`querytools.py` `JoinClause.__init__` with the remaining
arguments defaulted to `None`, which is how the service layer builds them). -/
def mkJoin (target : String) : Clause :=
  {table_name := some target, join_type := some EnumJoinTypes.INNER_JOIN}

/-- A `FieldClause` carrying only the logical field path. -/
def mkField (path : String) : Clause :=
  {field_name := some path}

/-- A `FilterClause` carrying a path, a filter type and a comparison value. -/
def mkFilter (path : String) (ft : EnumFilterTypes) (v : PyVal) : Clause :=
  {field_name := some path, filter_type := some ft, object_to_compare := v}

/-! SQL fragment renderers (`mysqldaotools.py` lines 68-214).  Reading an enum
attribute that is Python `None` (`filter_type.filter_keyword`, ...) is an
`AttributeError`; rendering a translated clause never hits those cases. -/

/-- The element string inside an IN list: strings are single-quoted, everything
else goes through `str`. -/
def inElementStr (v : PyVal) : String :=
  if isPyStr v then "\x27" ++ pyStrOf v ++ "\x27" else pyStrOf v

/-- The loop of the IN/NOT IN branch of `resolve_filter_clause` (lines
99-112).  As in the source, `compare` is REASSIGNED (not appended) on every
iteration, so the final value comes from the last element alone. -/
def inCompareLoop (n : Nat) : Nat → List PyVal → String → String
  | _, [], compare => compare
  | idx, v :: rest, _ =>
    let element := inElementStr v
    let compare := if idx == 0 then "(" ++ element
                   else if idx == n - 1 then ", " ++ element ++ ")"
                   else ", " ++ element
    inCompareLoop n (idx + 1) rest compare

/-- `resolve_filter_clause` (`mysqldaotools.py` lines 68-128) for one clause,
given the `is_first` flag of the surrounding loop. -/
def resolve_filter_clause (item : Clause) (is_first : Bool) : Except PyErr String := do
  let ft ← match item.filter_type with
    | some t => pure t
    | none => Except.error .attributeError
  let start_parenthesis := String.join (List.replicate item.start_parenthesis "(")
  let end_parenthesis := String.join (List.replicate item.end_parenthesis ")")
  let compare ←
    if ft == EnumFilterTypes.LIKE || ft == EnumFilterTypes.NOT_LIKE then
      pure ("%" ++ pyStrOf item.object_to_compare ++ "%")
    else if ft == EnumFilterTypes.IN || ft == EnumFilterTypes.NOT_IN then
      match item.object_to_compare with
      | .pyList elems =>
        if elems.length > 1 then
          pure (inCompareLoop elems.length 0 elems "")
        else
          match elems with
          | e :: _ => pure ("(" ++ pyStrOf e ++ ")")
          | [] => Except.error .keyError
      | _ => Except.error .attributeError
    else
      pure (pyStrOf item.object_to_compare)
  let compare := if isPyStr item.object_to_compare then "\x27" ++ compare ++ "\x27" else compare
  let operator := item.operator_type.operator_keyword
  pure ((if is_first then "WHERE " else " " ++ operator ++ " ")
        ++ start_parenthesis ++ pyOptStr item.table_alias ++ "." ++ pyOptStr item.field_name
        ++ " " ++ ft.filter_keyword ++ " " ++ compare ++ end_parenthesis)

/-- `resolve_order_by_clause` (lines 131-146). -/
def resolve_order_by_clause (item : Clause) (is_first : Bool) : Except PyErr String := do
  let ot ← match item.order_by_type with
    | some t => pure t
    | none => Except.error .attributeError
  pure ((if is_first then "ORDER BY " else ", ")
        ++ pyOptStr item.table_alias ++ "." ++ pyOptStr item.field_name
        ++ " " ++ ot.order_by_keyword)

/-- `resolve_join_clause` (lines 149-163; note the leading blank). -/
def resolve_join_clause (item : Clause) : Except PyErr String := do
  let jt ← match item.join_type with
    | some t => pure t
    | none => Except.error .attributeError
  pure (" " ++ jt.join_keyword ++ " " ++ pyOptStr item.table_name ++ " "
        ++ pyOptStr item.table_alias ++ " ON " ++ pyOptStr item.table_alias ++ "."
        ++ pyOptStr item.id_column_name ++ " = " ++ pyOptStr item.parent_table ++ "."
        ++ pyOptStr item.parent_table_referenced_column_name)

/-- `resolve_group_by_clause` (lines 166-181). -/
def resolve_group_by_clause (item : Clause) (is_first : Bool) : String :=
  (if is_first then "GROUP BY " else ", ")
    ++ pyOptStr item.table_alias ++ "." ++ pyOptStr item.field_name ++ " "

/-- `resolve_field_clause` (lines 184-199): a missing `field_alias` renders as
the empty string (not as `None`). -/
def resolve_field_clause (item : Clause) (is_last : Bool) : String :=
  pyOptStr item.table_alias ++ "." ++ pyOptStr item.field_name ++ " "
    ++ (match item.field_alias with | some a => a | none => "")
    ++ " " ++ (if is_last then "" else ", ") ++ " "

/-- `resolve_limit_offset` (lines 202-214). -/
def resolve_limit_offset (limit : Int) (offset : Option Int) : String :=
  match offset with
  | some o => "LIMIT " ++ toString o ++ ", " ++ toString limit
  | none => "LIMIT " ++ toString limit

/-- `optimized_for_loop` of `core/util/listutils.py`, specialised to fragment
rendering: calls the resolver with the first/last flags of each element.  (The
source computes the flags by object identity against the ends of the list;
translated clauses are pairwise distinct fresh objects, so position and
identity agree.) -/
def renderLoop (f : Clause → Bool → Bool → Except PyErr String) :
    List Clause → Bool → Except PyErr (List String)
  | [], _ => .ok []
  | [x], is_first => (f x is_first true).map (fun s => [s])
  | x :: y :: rest, is_first => do
    let s ← f x is_first false
    let srest ← renderLoop f (y :: rest) false
    pure (s :: srest)

/-- The SELECT path of the engine: the translation phase of
`BaseDao.find_by_filtered_query` (`basedao.py` lines 439-509: fields, filters,
order by, group by, joins — in that order, each only when non-empty) feeding
the statement assembly of `__find_by_filtered_query_internal` (lines 538-616),
with the clause translation performed by the `mysqldaotools` functions
embedded above.  The returned string is exactly the SQL handed to
`cursor.execute`; a translation fault therefore means no SQL is rendered or
executed for the query. -/
def find_by_filtered_query_sql (schema : Schema) (base : EntityType) (table : String)
    (fields filters order_by joins group_by : List Clause)
    (offset limit : Option Int) : Except PyErr String := do
  let ts0 : TransState := {}
  let (fields_translated, ts1) ←
    if fields.length > 0 then
      (resolve_translation_of_clauses ClauseType.fieldC schema base table fields ts0).map
        (fun p => (some p.1, p.2))
    else pure (none, ts0)
  let (filters_translated, ts2) ←
    if filters.length > 0 then
      (resolve_translation_of_clauses ClauseType.filterC schema base table filters ts1).map
        (fun p => (some p.1, p.2))
    else pure (none, ts1)
  let (order_by_translated, ts3) ←
    if order_by.length > 0 then
      (resolve_translation_of_clauses ClauseType.orderByC schema base table order_by ts2).map
        (fun p => (some p.1, p.2))
    else pure (none, ts2)
  let (group_by_translated, _) ←
    if group_by.length > 0 then
      (resolve_translation_of_clauses ClauseType.groupByC schema base table group_by ts3).map
        (fun p => (some p.1, p.2))
    else pure (none, ts3)
  let joins_translated ←
    if joins.length > 0 then
      (resolve_translation_of_joins schema base table joins).map some
    else pure none
  -- statement assembly (`__find_by_filtered_query_internal`)
  let select ←
    match fields_translated with
    | some fs => (renderLoop (fun c _ l => .ok (resolve_field_clause c l)) fs true).map String.join
    | none => pure "*"
  let filtro ←
    match filters_translated with
    | some fs => (renderLoop (fun c f _ => resolve_filter_clause c f) fs true).map String.join
    | none => pure ""
  let join ←
    match joins_translated with
    | some js => (renderLoop (fun c _ _ => resolve_join_clause c) js true).map String.join
    | none => pure ""
  let group ←
    match group_by_translated with
    | some gs => (renderLoop (fun c f _ => .ok (resolve_group_by_clause c f)) gs true).map String.join
    | none => pure ""
  let orden ←
    match order_by_translated with
    | some os => (renderLoop (fun c f _ => resolve_order_by_clause c f) os true).map String.join
    | none => pure ""
  let limit_offset :=
    match limit with
    | some l => resolve_limit_offset l offset
    | none => ""
  pure ("SELECT " ++ pyStrip select ++ " FROM " ++ table ++ " " ++ pyStrip join ++ " "
        ++ pyStrip filtro ++ " " ++ pyStrip group ++ " " ++ pyStrip orden ++ " "
        ++ pyStrip limit_offset)

/-! Value rendering for INSERT/UPDATE.  `BaseDao.insert` and `BaseDao.update`
(`basedao.py` lines 255-277) build their statements from the ENTITY methods of
`core/model/modeldefinition.py` (lines 129-214); the standalone helpers of
`mysqldaotools.py` (lines 433-531) are a parallel implementation with
different `None` handling.  Both are embedded. -/

/-- `BaseEntity.get_field_names_as_str` (`modeldefinition.py` lines 129-144):
the id column first, then every other column, comma-separated. -/
def get_field_names_as_str (meta : EntityType) : Except PyErr String := do
  let idDb ← get_id_field_name_in_db meta
  pure (meta.model_dict.foldl
    (fun cadena kv =>
      if kv.1 == meta.id_field_name then cadena else cadena ++ ", " ++ kv.2.name_in_db)
    idDb)

/-- The body of the field loop of `BaseEntity.get_field_values_as_str`
(`modeldefinition.py` lines 156-178), one field at a time. -/
def field_value_fragment (cadena : String) (key : String) (fdef : FieldDefinition)
    (values : List (String × PyVal)) : Except PyErr String := do
  let v ← match dictGet values key with
    | some v => pure v
    | none => Except.error .attributeError
  -- if issubclass(field_type, BaseEntity): v = getattr(v, type(v).get_id_field_name())
  -- (no None guard: a None nested entity is an AttributeError on NoneType)
  let v ←
    if isBaseEntitySubclass fdef.field_type then
      match v with
      | .pyEntity m fs =>
        match dictGet fs m.id_field_name with
        | some idv => pure idv
        | none => Except.error .attributeError
      | _ => Except.error .attributeError
    else pure v
  match v with
  | .pyStr s => pure (cadena ++ ", \x27" ++ s ++ "\x27")
  | .pyBytes bs => pure (cadena ++ ", \x27" ++ latin1Decode bs ++ "\x27")
  | w => pure (cadena ++ ", " ++ pyStrOf w)

/-- Loop driver for `get_field_values_as_str`. -/
def field_values_loop (meta : EntityType) (values : List (String × PyVal)) :
    List (String × FieldDefinition) → String → Except PyErr String
  | [], cadena => .ok cadena
  | (key, fdef) :: rest, cadena =>
    if key == meta.id_field_name then field_values_loop meta values rest cadena
    else
      match field_value_fragment cadena key fdef values with
      | .error e => .error e
      | .ok cadena2 => field_values_loop meta values rest cadena2

/-- `BaseEntity.get_field_values_as_str` (`modeldefinition.py` lines 146-180):
starts at `"null"` (or the id value when `is_id_included`, fetched by its
DATABASE name, which for these entities is not a Python attribute), then the
comma-separated rendered values.  Note: there is NO `None` branch here — a
`None` scalar renders through `str(v)` as the text `None`. -/
def get_field_values_as_str (meta : EntityType) (values : List (String × PyVal))
    (is_id_included : Bool) : Except PyErr String := do
  let cadena ←
    if is_id_included then do
      let idDb ← get_id_field_name_in_db meta
      match dictGet values idDb with
      | some (.pyStr s) => pure s
      | some _ => Except.error .attributeError
      | none => Except.error .attributeError
    else pure "null"
  field_values_loop meta values meta.model_dict cadena

/-- The body of the field loop of `BaseEntity.get_fields_with_value_as_str`
(`modeldefinition.py` lines 192-212): the nested-entity id is fetched through
the DECLARED field class (`value.field_type.get_id_field_name()`), and again
there is no `None` branch. -/
def field_update_fragment (schema : Schema) (cadena : String) (key : String)
    (fdef : FieldDefinition) (values : List (String × PyVal)) : Except PyErr String := do
  let v ← match dictGet values key with
    | some v => pure v
    | none => Except.error .attributeError
  let v ←
    if isBaseEntitySubclass fdef.field_type then
      match classModelDict schema fdef.field_type with
      | none => Except.error .attributeError
      | some ety =>
        match v with
        | .pyEntity _ fs =>
          match dictGet fs ety.id_field_name with
          | some idv => pure idv
          | none => Except.error .attributeError
        | _ => Except.error .attributeError
    else pure v
  match v with
  | .pyStr s => pure (cadena ++ " , " ++ fdef.name_in_db ++ " = \x27" ++ s ++ "\x27")
  | .pyBytes bs => pure (cadena ++ " , " ++ fdef.name_in_db ++ " = \x27" ++ latin1Decode bs ++ "\x27")
  | w => pure (cadena ++ " , " ++ fdef.name_in_db ++ " = " ++ pyStrOf w)

/-- Loop driver for `get_fields_with_value_as_str`. -/
def field_updates_loop (schema : Schema) (meta : EntityType) (values : List (String × PyVal)) :
    List (String × FieldDefinition) → String → Except PyErr String
  | [], cadena => .ok cadena
  | (key, fdef) :: rest, cadena =>
    if key == meta.id_field_name then field_updates_loop schema meta values rest cadena
    else
      match field_update_fragment schema cadena key fdef values with
      | .error e => .error e
      | .ok cadena2 => field_updates_loop schema meta values rest cadena2

/-- `BaseEntity.get_fields_with_value_as_str` (`modeldefinition.py` lines
182-214): `id_db_name = id_value` first, then ` , column = value` pairs. -/
def get_fields_with_value_as_str (schema : Schema) (meta : EntityType)
    (values : List (String × PyVal)) : Except PyErr String := do
  let idDb ← get_id_field_name_in_db meta
  let idv ← match dictGet values meta.id_field_name with
    | some v => pure v
    | none => Except.error .attributeError
  field_updates_loop schema meta values meta.model_dict (idDb ++ " = " ++ pyStrOf idv)

/-- The body of the field loop of `get_field_values_as_str_for_insert`
(`mysqldaotools.py` lines 468-489): unlike the entity method, it guards the
nested-entity id fetch with `v is not None` and has an explicit `None → null`
branch. -/
def field_value_fragment_for_insert (cadena : String) (key : String)
    (fdef : FieldDefinition) (values : List (String × PyVal)) : Except PyErr String := do
  let v ← match dictGet values key with
    | some v => pure v
    | none => Except.error .attributeError
  let v ←
    if isBaseEntitySubclass fdef.field_type && !(v matches PyVal.pyNone) then
      match v with
      | .pyEntity m fs =>
        match dictGet fs m.id_field_name with
        | some idv => pure idv
        | none => Except.error .attributeError
      | _ => Except.error .attributeError
    else pure v
  match v with
  | .pyStr s => pure (cadena ++ ", \x27" ++ s ++ "\x27")
  | .pyBytes bs => pure (cadena ++ ", \x27" ++ latin1Decode bs ++ "\x27")
  | .pyNone => pure (cadena ++ ", null")
  | w => pure (cadena ++ ", " ++ pyStrOf w)

/-- Loop driver for `get_field_values_as_str_for_insert`. -/
def insert_values_loop (meta : EntityType) (values : List (String × PyVal)) :
    List (String × FieldDefinition) → String → Except PyErr String
  | [], cadena => .ok cadena
  | (key, fdef) :: rest, cadena =>
    if key == meta.id_field_name then insert_values_loop meta values rest cadena
    else
      match field_value_fragment_for_insert cadena key fdef values with
      | .error e => .error e
      | .ok cadena2 => insert_values_loop meta values rest cadena2

/-- `get_field_values_as_str_for_insert` (`mysqldaotools.py` lines 453-491). -/
def get_field_values_as_str_for_insert (meta : EntityType) (values : List (String × PyVal))
    (is_id_included : Bool) : Except PyErr String := do
  let cadena ←
    if is_id_included then do
      let idDb ← get_id_field_name_in_db meta
      match dictGet values idDb with
      | some (.pyStr s) => pure s
      | some _ => Except.error .attributeError
      | none => Except.error .attributeError
    else pure "null"
  insert_values_loop meta values meta.model_dict cadena

/-- The body of the field loop of `get_fields_with_value_as_str_for_update`
(`mysqldaotools.py` lines 507-529): `None`-guarded nested-entity fetch through
the declared class, and an explicit `None → null` branch. -/
def field_update_fragment_for_update (schema : Schema) (cadena : String) (key : String)
    (fdef : FieldDefinition) (values : List (String × PyVal)) : Except PyErr String := do
  let v ← match dictGet values key with
    | some v => pure v
    | none => Except.error .attributeError
  let v ←
    if isBaseEntitySubclass fdef.field_type && !(v matches PyVal.pyNone) then
      match classModelDict schema fdef.field_type with
      | none => Except.error .attributeError
      | some ety =>
        match v with
        | .pyEntity _ fs =>
          match dictGet fs ety.id_field_name with
          | some idv => pure idv
          | none => Except.error .attributeError
        | _ => Except.error .attributeError
    else pure v
  match v with
  | .pyStr s => pure (cadena ++ " , " ++ fdef.name_in_db ++ " = \x27" ++ s ++ "\x27")
  | .pyBytes bs => pure (cadena ++ " , " ++ fdef.name_in_db ++ " = \x27" ++ latin1Decode bs ++ "\x27")
  | .pyNone => pure (cadena ++ " , " ++ fdef.name_in_db ++ " = null")
  | w => pure (cadena ++ " , " ++ fdef.name_in_db ++ " = " ++ pyStrOf w)

/-- Loop driver for `get_fields_with_value_as_str_for_update`. -/
def update_values_loop (schema : Schema) (meta : EntityType) (values : List (String × PyVal)) :
    List (String × FieldDefinition) → String → Except PyErr String
  | [], cadena => .ok cadena
  | (key, fdef) :: rest, cadena =>
    if key == meta.id_field_name then update_values_loop schema meta values rest cadena
    else
      match field_update_fragment_for_update schema cadena key fdef values with
      | .error e => .error e
      | .ok cadena2 => update_values_loop schema meta values rest cadena2

/-- `get_fields_with_value_as_str_for_update` (`mysqldaotools.py` lines
494-531). -/
def get_fields_with_value_as_str_for_update (schema : Schema) (meta : EntityType)
    (values : List (String × PyVal)) : Except PyErr String := do
  let idDb ← get_id_field_name_in_db meta
  let idv ← match dictGet values meta.id_field_name with
    | some v => pure v
    | none => Except.error .attributeError
  update_values_loop schema meta values meta.model_dict (idDb ++ " = " ++ pyStrOf idv)

/-- The statement rendered by `BaseDao.insert` (`basedao.py` lines 255-266):
built from the ENTITY methods (including their trailing blank). -/
def insert_sql (table : String) (meta : EntityType) (values : List (String × PyVal)) :
    Except PyErr String := do
  let names ← get_field_names_as_str meta
  let vals ← get_field_values_as_str meta values false
  pure ("insert into " ++ table ++ " (" ++ names ++ ") values (" ++ vals ++ ") ")

/-- The statement rendered by `BaseDao.update` (`basedao.py` lines 268-277). -/
def update_sql (schema : Schema) (table : String) (meta : EntityType)
    (values : List (String × PyVal)) : Except PyErr String := do
  let sets ← get_fields_with_value_as_str schema meta values
  let idv ← match dictGet values meta.id_field_name with
    | some v => pure v
    | none => Except.error .attributeError
  pure ("update " ++ table ++ " set " ++ sets ++ " where id = " ++ pyStrOf idv)

/-! Connection registry and transaction envelope (`basedao.py` lines 23-253,
`service.py` lines 57-96).  An execution context is its thread id; the
class-level dictionary `BaseDao.__connected_threads` is the registry; pooled
connections and cursors are numbered handles. -/

/-- `_BaseConnection` (`basedao.py` lines 23-59): the record stored per
thread — the pooled connection handle and the cursor opened in `__init__`. -/
structure BaseConnection where
  connection : Nat
  thread_id : Nat
  cursor : Nat
deriving DecidableEq, Repr

/-- The observable database-side state: the shared registry plus event logs of
the operations performed on connections (close / commit / rollback) and of the
statements handed to `cursor.execute`. -/
structure DbState where
  connected_threads : List (Nat × BaseConnection) := []
  closed : List Nat := []
  committed : List Nat := []
  rolled_back : List Nat := []
  executed : List String := []
deriving DecidableEq, Repr

/-- Registry lookup (`thread_id in __connected_threads` / `[thread_id]`). -/
def registryGet (d : List (Nat × BaseConnection)) (k : Nat) : Option BaseConnection :=
  (d.find? (fun p => p.1 == k)).map (fun p => p.2)

/-- Registry removal (`__connected_threads.pop(thread_id, None)`). -/
def registryPop (d : List (Nat × BaseConnection)) (k : Nat) : List (Nat × BaseConnection) :=
  d.filter (fun p => p.1 != k)

/-- `BaseDao.connect` (`basedao.py` lines 171-192).  The pool acquisition and
the cursor opening of `_BaseConnection.__init__` are supplied as explicit
outcomes (`pool_connection`, `cursor_of`); the registry assignment happens
only after both succeed, mirroring
`__connected_threads[tid] = _BaseConnection(connection=__POOL.connection(), ...)`.
The state is returned alongside the outcome: a raised exception leaves the
registry as it was. -/
def connect (thread_id : Nat) (pool_connection : Except PyErr Nat)
    (cursor_of : Nat → Except PyErr Nat) (s : DbState) : Except PyErr Bool × DbState :=
  if (registryGet s.connected_threads thread_id).isSome then
    (.ok false, s)
  else
    match pool_connection with
    | .error e => (.error e, s)
    | .ok conn =>
      match cursor_of conn with
      | .error e => (.error e, s)
      | .ok cur =>
        (.ok true,
         {s with connected_threads :=
                   (thread_id, ⟨conn, thread_id, cur⟩) :: s.connected_threads})

/-- `BaseDao.disconnect` (`basedao.py` lines 194-205): when the thread holds a
record, `close()` the connection (logged) and pop the record; otherwise do
nothing. -/
def disconnect (thread_id : Nat) (s : DbState) : DbState :=
  match registryGet s.connected_threads thread_id with
  | some bc =>
    {s with closed := s.closed ++ [bc.connection],
            connected_threads := registryPop s.connected_threads thread_id}
  | none => s

/-- The no-connection fault raised by `commit`, `rollback` and
`__execute_query_internal` when the thread holds no record. -/
def noConnectionErr : PyErr :=
  .customException "i18n_base_commonError_database_connection" []

/-- `BaseDao.commit` (`basedao.py` lines 207-215). -/
def commit (thread_id : Nat) (s : DbState) : Except PyErr Unit × DbState :=
  match registryGet s.connected_threads thread_id with
  | some bc => (.ok (), {s with committed := s.committed ++ [bc.connection]})
  | none => (.error noConnectionErr, s)

/-- `BaseDao.rollback` (`basedao.py` lines 217-225). -/
def rollback (thread_id : Nat) (s : DbState) : Except PyErr Unit × DbState :=
  match registryGet s.connected_threads thread_id with
  | some bc => (.ok (), {s with rolled_back := s.rolled_back ++ [bc.connection]})
  | none => (.error noConnectionErr, s)

/-- `BaseDao.__execute_query_internal` (`basedao.py` lines 227-253): with a
record present the statement reaches `cursor.execute` (logged); without one
the no-connection fault is raised and nothing is executed. -/
def execute_query_internal (thread_id : Nat) (sql : String) (s : DbState) :
    Except PyErr Unit × DbState :=
  match registryGet s.connected_threads thread_id with
  | some _ => (.ok (), {s with executed := s.executed ++ [sql]})
  | none => (.error noConnectionErr, s)

/-- `BaseService.__start_transaction` (`service.py` lines 57-96): connect,
remember whether THIS call opened the connection (`i_had_to_connect`), run the
wrapped function, then commit on success / rollback on failure and finally
disconnect — each of those three conditional on `i_had_to_connect`, so an
inner (non-owning) call performs none of them. -/
def start_transaction {α : Type} (thread_id : Nat) (pool_connection : Except PyErr Nat)
    (cursor_of : Nat → Except PyErr Nat)
    (body : DbState → Except PyErr α × DbState) (s : DbState) :
    Except PyErr α × DbState :=
  match connect thread_id pool_connection cursor_of s with
  | (.error e, s1) => (.error e, s1)
  | (.ok i_had_to_connect, s1) =>
    match body s1 with
    | (.ok result, s2) =>
      if i_had_to_connect then
        match commit thread_id s2 with
        | (.ok _, s3) => (.ok result, disconnect thread_id s3)
        | (.error e, s3) =>
          -- commit raised: the except block rolls back, the finally disconnects
          let (rb, s4) := rollback thread_id s3
          match rb with
          | .ok _ => (.error e, disconnect thread_id s4)
          | .error e2 => (.error e2, disconnect thread_id s4)
      else (.ok result, s2)
    | (.error e, s2) =>
      if i_had_to_connect then
        let (rb, s3) := rollback thread_id s2
        match rb with
        | .ok _ => (.error e, disconnect thread_id s3)
        | .error e2 => (.error e2, disconnect thread_id s3)
      else (.error e, s2)

/-! Heap-level view of the translation loop, for the clone-not-mutate
property.  Python clause objects live on a heap; the caller's list is a list
of references into it.  Each iteration of `resolve_translation_of_clauses`
reads `f` through its reference, allocates `new_clause = copy.deepcopy(f)` as
a FRESH cell and performs every mutation on that fresh cell; the translated
value of the fresh cell is computed by `translate_clause` above. -/

/-- The translation loop over a heap: `heap` is the object store, `ids` the
caller's references.  Every `deepcopy` allocates at the end of the heap; cells
reachable from the caller's list are never written. -/
def resolve_clauses_on_heap (clause_type : ClauseType) (schema : Schema) (base : EntityType)
    (table_db_name : String) :
    List Nat → List Clause → TransState → Except PyErr (List Clause × List Nat × TransState)
  | [], heap, ts => .ok (heap, [], ts)
  | i :: rest, heap, ts =>
    match heap.get? i with
    | none => .error .attributeError
    | some f =>
      match translate_clause clause_type schema base table_db_name ts f with
      | .error e => .error e
      | .ok (nc, ts2) =>
        match resolve_clauses_on_heap clause_type schema base table_db_name
                rest (heap ++ [nc]) ts2 with
        | .error e => .error e
        | .ok (heap2, outIds, ts3) => .ok (heap2, heap.length :: outIds, ts3)

/-! The `Cliente` entity's identity operations (`impl/model/cliente.py` lines
129-158).  A `Cliente` instance carries all eight model attributes; the id may
be Python `None`. -/

/-- A `Cliente` instance (constructor attributes of `impl/model/cliente.py`).
Nested entities are kept as the ids they would contribute, which is all the
identity operations can observe anyway. -/
structure Cliente where
  cliente_id : Option Int
  codigo : Option String
  nombre : Option String
  apellidos : Option String
  saldo : Option Int
  tipo_cliente : Option Int
  usuario_creacion : Option Int
  usuario_ult_mod : Option Int

/-- `Cliente.__eq__`: `isinstance` holds for two `Cliente` instances, so
equality is the comparison of the `cliente_id` attributes (`None == None` is
true in Python, as for `Option.beq`). -/
def cliente_eq (a b : Cliente) : Bool :=
  a.cliente_id == b.cliente_id

/-- `Cliente.__ne__`: `not self.__eq__(other)`. -/
def cliente_ne (a b : Cliente) : Bool :=
  !(cliente_eq a b)

/-- `Cliente.__hash__`: `hash(self.cliente_id)`, with Python's builtin `hash`
abstracted as a function on the id value. -/
def cliente_hash (pyHash : Option Int → Int) (a : Cliente) : Int :=
  pyHash a.cliente_id

/-! Helper lemmas about the registry. -/

/-- Popping an absent key leaves the registry unchanged. -/
theorem registryPop_of_none {d : List (Nat × BaseConnection)} {tid : Nat}
    (h : registryGet d tid = none) : registryPop d tid = d := by
  unfold registryGet at h
  unfold registryPop
  have hall : ∀ p ∈ d, ¬ (p.1 == tid) = true := by
    intro p hp
    have := List.find?_eq_none.mp (by
      cases hfind : List.find? (fun p => p.1 == tid) d with
      | none => rfl
      | some v => rw [hfind] at h; simp at h) p hp
    exact this
  refine List.filter_eq_self.mpr ?_
  intro p hp
  have := hall p hp
  simp only [bne_iff_ne, ne_eq]
  intro heq
  exact this (by simp [heq])

/-- A `start_transaction` entered while the context already holds a record is
a pass-through: `connect` returns `False`, so neither commit, nor rollback,
nor disconnect run, and the call behaves exactly as the wrapped function. -/
theorem start_transaction_inner_passthrough {α : Type} (tid : Nat)
    (pool : Except PyErr Nat) (cursor_of : Nat → Except PyErr Nat)
    (body : DbState → Except PyErr α × DbState) (s : DbState) (bc : BaseConnection)
    (hsome : registryGet s.connected_threads tid = some bc) :
    start_transaction tid pool cursor_of body s = body s := by
  unfold start_transaction connect
  rw [hsome]
  simp only [Option.isSome_some, if_true]
  cases hb : body s with
  | mk r s2 =>
    cases r with
    | ok v => simp
    | error e => simp

/-- C2: within one execution context, the transaction envelope of an inner
(non-owning) call — the call whose `connect()` returned `False` — performs no
disconnect, no commit and no rollback: it is an exact pass-through for the
shared connection; and in a nested run only the outer call closes the pooled
connection and removes the context's registry record. -/
theorem inner_call_noop_outer_owns_disconnect {α : Type} (tid conn cur : Nat)
    (cursor_of : Nat → Except PyErr Nat)
    (body : DbState → Except PyErr α × DbState) (s sInner : DbState)
    (bc : BaseConnection) (r : α)
    (hsome : registryGet sInner.connected_threads tid = some bc)
    (hnone : registryGet s.connected_threads tid = none)
    (hcur : cursor_of conn = .ok cur) :
    start_transaction tid (.ok conn) cursor_of body sInner = body sInner
    ∧ start_transaction tid (.ok conn) cursor_of
        (fun s1 => start_transaction tid (.ok conn) cursor_of
                     (fun s2 => (.ok r, s2)) s1) s
      = (.ok r, {s with closed := s.closed ++ [conn], committed := s.committed ++ [conn]}) := by
  constructor
  · exact start_transaction_inner_passthrough tid (.ok conn) cursor_of body sInner bc hsome
  · have hs1 : connect tid (.ok conn) cursor_of s =
        (.ok true, {s with connected_threads := (tid, ⟨conn, tid, cur⟩) :: s.connected_threads}) := by
      unfold connect
      rw [hnone]
      simp [hcur]
    have hs2 : connect tid (.ok conn) cursor_of
        {s with connected_threads := (tid, ⟨conn, tid, cur⟩) :: s.connected_threads} =
        (.ok false, {s with connected_threads := (tid, ⟨conn, tid, cur⟩) :: s.connected_threads}) := by
      unfold connect
      simp [registryGet]
    have hpop : List.filter (fun p => p.1 != tid) s.connected_threads = s.connected_threads := by
      have := registryPop_of_none hnone
      unfold registryPop at this
      exact this
    simp only [start_transaction, hs1, hs2, commit, disconnect, registryGet, registryPop,
               List.find?, beq_self_eq_true, Option.map_some, List.filter, bne_self_eq_false,
               hpop]
    simp [List.find?, hpop]

/-- C3: the first `connect()` of an execution context creates the context's
registry record (connection and cursor freshly acquired) and returns `True`;
any further `connect()` from the same context returns `False` and leaves the
registry, the held connection and the cursor untouched. -/
theorem connect_first_creates_then_reentrant_false (s : DbState) (tid conn cur : Nat)
    (cursor_of : Nat → Except PyErr Nat) (pool2 : Except PyErr Nat)
    (cursor2 : Nat → Except PyErr Nat)
    (hnone : registryGet s.connected_threads tid = none)
    (hcur : cursor_of conn = .ok cur) :
    connect tid (.ok conn) cursor_of s =
      (.ok true, {s with connected_threads := (tid, ⟨conn, tid, cur⟩) :: s.connected_threads})
    ∧ connect tid pool2 cursor2
        {s with connected_threads := (tid, ⟨conn, tid, cur⟩) :: s.connected_threads} =
      (.ok false, {s with connected_threads := (tid, ⟨conn, tid, cur⟩) :: s.connected_threads}) := by
  constructor
  · unfold connect
    rw [hnone]
    simp [hcur]
  · unfold connect
    simp [registryGet]

/-- C4: with no registry record for the execution context, `commit`,
`rollback` and statement execution all raise the no-connection
`CustomException` and leave every piece of the database state untouched: no
commit, rollback or statement ever reaches the connection. -/
theorem no_connection_operations_fault (s : DbState) (tid : Nat) (sql : String)
    (h : registryGet s.connected_threads tid = none) :
    commit tid s = (.error noConnectionErr, s)
    ∧ rollback tid s = (.error noConnectionErr, s)
    ∧ execute_query_internal tid sql s = (.error noConnectionErr, s) := by
  unfold commit rollback execute_query_internal
  rw [h]
  exact ⟨rfl, rfl, rfl⟩

/-- C10: a `connect()` that fails while acquiring the pooled connection, or
while opening the cursor inside `_BaseConnection.__init__`, propagates the
exception and leaves the registry exactly as it was: the record assignment
runs only after both acquisitions succeed. -/
theorem connect_failure_atomic (s : DbState) (tid conn : Nat) (e e2 : PyErr)
    (cursor_of : Nat → Except PyErr Nat)
    (hnone : registryGet s.connected_threads tid = none)
    (hcur : cursor_of conn = .error e2) :
    connect tid (.error e) cursor_of s = (.error e, s)
    ∧ connect tid (.ok conn) cursor_of s = (.error e2, s) := by
  constructor
  · unfold connect
    rw [hnone]
    simp
  · unfold connect
    rw [hnone]
    simp [hcur]

/-- C9: equality of two `Cliente` instances is exactly equality of their
`cliente_id` attributes — every other attribute is ignored —, `__ne__` is the
boolean negation of `__eq__`, and the hash reads nothing but `cliente_id`, so
instances with equal identifiers hash alike and are interchangeable as
dictionary keys. -/
theorem cliente_identity_semantics (pyHash : Option Int → Int) (a b : Cliente) :
    (cliente_eq a b = true ↔ a.cliente_id = b.cliente_id)
    ∧ cliente_ne a b = !(cliente_eq a b)
    ∧ (a.cliente_id = b.cliente_id →
         cliente_eq a b = true ∧ cliente_hash pyHash a = cliente_hash pyHash b) := by
  refine ⟨?_, rfl, ?_⟩
  · unfold cliente_eq
    exact beq_iff_eq
  · intro h
    unfold cliente_eq cliente_hash
    rw [h]
    exact ⟨beq_self_eq_true _, rfl⟩

/-- A one-record registry state used by the concrete witnesses. -/
def oneRecordState : DbState :=
  {connected_threads := [(1, ⟨10, 1, 20⟩)]}

/-- Witness for the C2 theorem at a concrete execution context: thread 1,
pooled connection 10, cursor 20, with the wrapped function returning 0. -/
theorem inner_call_noop_outer_owns_disconnect_witness :
    registryGet oneRecordState.connected_threads 1 = some ⟨10, 1, 20⟩
    ∧ start_transaction 1 (.ok 10) (fun _ => .ok 20)
        (fun s => ((.ok 0 : Except PyErr Nat), s)) oneRecordState
      = ((.ok 0 : Except PyErr Nat), oneRecordState)
    ∧ start_transaction 1 (.ok 10) (fun _ => .ok 20)
        (fun s1 => start_transaction 1 (.ok 10) (fun _ => .ok 20)
                     (fun s2 => ((.ok 0 : Except PyErr Nat), s2)) s1) {}
      = (.ok 0, {closed := [10], committed := [10]}) :=
  ⟨rfl,
   (inner_call_noop_outer_owns_disconnect 1 10 20 (fun _ => .ok 20)
      (fun s => (.ok 0, s)) {} oneRecordState ⟨10, 1, 20⟩ 0 rfl rfl rfl).1,
   (inner_call_noop_outer_owns_disconnect 1 10 20 (fun _ => .ok 20)
      (fun s => (.ok 0, s)) {} oneRecordState ⟨10, 1, 20⟩ 0 rfl rfl rfl).2⟩

/-- Witness for the C3 theorem: the second `connect` returns `False` and
changes nothing even though its pool and cursor suppliers would fail. -/
theorem connect_first_creates_then_reentrant_false_witness :
    registryGet (DbState.connected_threads {}) 1 = none
    ∧ connect 1 (.ok 10) (fun _ => .ok 20) {} = (.ok true, oneRecordState)
    ∧ connect 1 (.error .attributeError) (fun _ => .error .attributeError) oneRecordState =
        (.ok false, oneRecordState) :=
  ⟨rfl,
   (connect_first_creates_then_reentrant_false {} 1 10 20 (fun _ => .ok 20)
      (.error .attributeError) (fun _ => .error .attributeError) rfl rfl).1,
   (connect_first_creates_then_reentrant_false {} 1 10 20 (fun _ => .ok 20)
      (.error .attributeError) (fun _ => .error .attributeError) rfl rfl).2⟩

/-- Witness for the C4 theorem on the empty registry. -/
theorem no_connection_operations_fault_witness :
    registryGet (DbState.connected_threads {}) 1 = none
    ∧ commit 1 {} = (.error noConnectionErr, {})
    ∧ rollback 1 {} = (.error noConnectionErr, {})
    ∧ execute_query_internal 1 "SELECT 1" {} = (.error noConnectionErr, {}) :=
  ⟨rfl,
   (no_connection_operations_fault {} 1 "SELECT 1" rfl).1,
   (no_connection_operations_fault {} 1 "SELECT 1" rfl).2.1,
   (no_connection_operations_fault {} 1 "SELECT 1" rfl).2.2⟩

/-- Witness for the C10 theorem: failing pool acquisition, and failing cursor
opening, both leave the empty registry empty. -/
theorem connect_failure_atomic_witness :
    registryGet (DbState.connected_threads {}) 1 = none
    ∧ connect 1 (.error .keyError) (fun _ => .error .attributeError) {} = (.error .keyError, {})
    ∧ connect 1 (.ok 10) (fun _ => .error .attributeError) {} = (.error .attributeError, {}) :=
  ⟨rfl,
   (connect_failure_atomic {} 1 10 .keyError .attributeError
      (fun _ => .error .attributeError) rfl rfl).1,
   (connect_failure_atomic {} 1 10 .keyError .attributeError
      (fun _ => .error .attributeError) rfl rfl).2⟩

/-- Two `Cliente` instances sharing the id but differing in every other
attribute. -/
def c9a : Cliente := ⟨some 5, some "A", some "n1", none, some 1, some 2, none, none⟩

/-- Companion instance for the C9 witness. -/
def c9b : Cliente := ⟨some 5, some "B", some "n2", some "x", some 9, some 3, some 4, some 5⟩

/-- Witness for the C9 theorem: equal ids, every other attribute different —
still equal, non-`__ne__`, and hashing alike. -/
theorem cliente_identity_semantics_witness :
    c9a.cliente_id = c9b.cliente_id
    ∧ cliente_eq c9a c9b = true
    ∧ cliente_ne c9a c9b = !(cliente_eq c9a c9b)
    ∧ cliente_hash (fun o => o.getD 0) c9a = cliente_hash (fun o => o.getD 0) c9b :=
  ⟨rfl,
   ((cliente_identity_semantics (fun o => o.getD 0) c9a c9b).2.2 rfl).1,
   (cliente_identity_semantics (fun o => o.getD 0) c9a c9b).2.1,
   ((cliente_identity_semantics (fun o => o.getD 0) c9a c9b).2.2 rfl).2⟩

/-- C8: the translation loop works exclusively on the `deepcopy`-allocated
fresh cells — after a successful run, every cell of the heap reachable from
the caller's reference list still holds exactly its pre-call value, so the
original clause list is reusable. -/
theorem resolve_clauses_on_heap_preserves_inputs
    (clause_type : ClauseType) (schema : Schema) (base : EntityType) (table : String)
    (ids : List Nat) (heap : List Clause) (ts : TransState)
    (heap2 : List Clause) (out : List Nat) (ts2 : TransState)
    (h : resolve_clauses_on_heap clause_type schema base table ids heap ts
           = .ok (heap2, out, ts2))
    (j : Nat) (hj : j < heap.length) :
    heap2.get? j = heap.get? j := by
  induction ids generalizing heap ts out with
  | nil =>
    unfold resolve_clauses_on_heap at h
    simp only [Except.ok.injEq, Prod.mk.injEq] at h
    obtain ⟨h1, _, _⟩ := h
    rw [h1]
  | cons i rest ih =>
    unfold resolve_clauses_on_heap at h
    split at h
    · cases h
    · rename_i f hget
      split at h
      · cases h
      · rename_i nc tsX htr
        split at h
        · cases h
        · rename_i heap3 out3 ts3 hrec
          simp only [Except.ok.injEq, Prod.mk.injEq] at h
          obtain ⟨h1, _, h3⟩ := h
          subst h1
          subst h3
          have hres := ih (heap ++ [nc]) tsX out3 hrec
            (lt_of_lt_of_le hj (by simp))
          rw [hres]
          simp only [List.get?_eq_getElem?]
          exact List.getElem?_append_left hj

/-- A concrete heap run for the C8 witness: one `FieldClause` over the
`Cliente` schema. -/
def c8Run : Except PyErr (List Clause × List Nat × TransState) :=
  resolve_clauses_on_heap ClauseType.fieldC repoSchema clienteEntity "clientes"
    [0] [mkField "codigo"] {}

/-- The heap after the witness run. -/
def c8Heap : List Clause := (c8Run.toOption.getD ([], [], {})).1

/-- The translated references after the witness run. -/
def c8Ids : List Nat := (c8Run.toOption.getD ([], [], {})).2.1

/-- The dictionaries after the witness run. -/
def c8St : TransState := (c8Run.toOption.getD ([], [], {})).2.2

/-- Witness for the C8 theorem: the concrete run succeeds and cell 0 — the
caller's clause — is byte-for-byte what it was before the call. -/
theorem resolve_clauses_on_heap_preserves_inputs_witness :
    c8Run = Except.ok (c8Heap, c8Ids, c8St)
    ∧ c8Heap.get? 0 = [mkField "codigo"].get? 0 :=
  ⟨rfl,
   resolve_clauses_on_heap_preserves_inputs ClauseType.fieldC repoSchema clienteEntity
     "clientes" [0] [mkField "codigo"] {} c8Heap c8Ids c8St rfl 0 (by decide)⟩

/-- The caller-side join list over the synthetic three-level schema: the three
nesting depths 1, 2 and 3, none with a caller-supplied `parent_table`. -/
def deepJoins : List Clause := [mkJoin "b", mkJoin "b.c", mkJoin "b.c.d"]

/-- The translated `(table_alias, parent_table)` pairs of a join run. -/
def joinParents (schema : Schema) (base : EntityType) (table : String)
    (joins : List Clause) : Except PyErr (List (Option String × Option String)) :=
  (resolve_translation_of_joins schema base table joins).map
    (fun l => l.map (fun c => (c.table_alias, c.parent_table)))

/-- Counterexample to C1: on a three-level schema the join over `b.c.d` is
translated with parent table `b` — the FIRST hop's alias, because the loop
indexes `join_parent_table_dict` at `field_name_array[lastIdx - idx] =
field_name_array[0]` — while the immediately preceding relation hop (`b.c`)
was assigned the alias `b$456$c`. -/
theorem join_parent_depth3_counterexample :
    joinParents deepSchema aEntity "ta" deepJoins
      = .ok [(some "b", some "ta"),
             (some "b$456$c", some "b"),
             (some "b$456$c$456$d", some "b")]
    ∧ (some "b" : Option String) ≠ some "b$456$c" :=
  ⟨rfl, by decide⟩

/-- C1 (amended): a single-segment join resolves its parent to the DAO's base
table, and a two-segment join to the alias of the first hop, which is indeed
the immediately preceding hop; but from depth three on the parent is resolved
through the FIRST path segment — the first hop's referenced table, rewritten
to that hop's alias — not through the immediately preceding hop. -/
theorem join_parent_resolution_amended :
    joinParents repoSchema clienteEntity "clientes"
        [mkJoin "tipo_cliente", mkJoin "tipo_cliente.usuario_creacion"]
      = .ok [(some "tipo_cliente", some "clientes"),
             (some "tipo_cliente$456$usuario_creacion", some "tipo_cliente")]
    ∧ joinParents deepSchema aEntity "ta" deepJoins
      = .ok [(some "b", some "ta"),
             (some "b$456$c", some "b"),
             (some "b$456$c$456$d", some "b")] :=
  ⟨rfl, rfl⟩

/-- Nested entity of the alias-collision schema: one scalar column `b`. -/
def collisionNested : EntityType :=
  { className := "ColNested", id_field_name := "n_id",
    model_dict := [("n_id", {field_type := .scalarTy "int", name_in_db := "id",
                             is_primary_key := true}),
                   ("b", {field_type := .scalarTy "str", name_in_db := "bb"})] }

/-- Base entity of the alias-collision schema: its table is named `a`, it has
a scalar field `b` and a relation field also named `a`. -/
def collisionBase : EntityType :=
  { className := "ColBase", id_field_name := "e_id",
    model_dict := [("e_id", {field_type := .scalarTy "int", name_in_db := "id",
                             is_primary_key := true}),
                   ("b", {field_type := .scalarTy "str", name_in_db := "b_db"}),
                   ("a", {field_type := .entityTy "ColNested", name_in_db := "a_fk",
                          referenced_table_name := some "tn"})] }

/-- The alias-collision schema. -/
def collisionSchema : Schema :=
  [("ColNested", collisionNested), ("ColBase", collisionBase)]

/-- Counterexample to C6: when the base table name (`a`) coincides with a
relation field name, the distinct logical paths `b` (a scalar of the base
entity) and `a.b` (a scalar of the nested entity) receive the SAME generated
field alias `a$123$b` within one translated query. -/
theorem alias_collision_counterexample :
    ((resolve_translation_of_clauses ClauseType.fieldC collisionSchema collisionBase "a"
        [mkField "b", mkField "a.b"] {}).map
        (fun p => p.1.map (fun c => c.field_alias)))
      = .ok [some "a$123$b", some "a$123$b"]
    ∧ ("b" : String) ≠ "a.b" :=
  ⟨rfl, by decide⟩

/-- Every valid logical selection path over the repository's `Cliente`
schema: the eight top-level fields, every field reachable through one
relation hop, and every field reachable through two. -/
def clientePaths : List String :=
  ["cliente_id", "codigo", "nombre", "apellidos", "saldo",
   "tipo_cliente", "usuario_creacion", "usuario_ult_mod",
   "tipo_cliente.tipo_cliente_id", "tipo_cliente.codigo", "tipo_cliente.descripcion",
   "tipo_cliente.usuario_creacion", "tipo_cliente.usuario_ult_mod",
   "usuario_creacion.usuario_id", "usuario_creacion.username", "usuario_creacion.password",
   "usuario_ult_mod.usuario_id", "usuario_ult_mod.username", "usuario_ult_mod.password",
   "tipo_cliente.usuario_creacion.usuario_id", "tipo_cliente.usuario_creacion.username",
   "tipo_cliente.usuario_creacion.password",
   "tipo_cliente.usuario_ult_mod.usuario_id", "tipo_cliente.usuario_ult_mod.username",
   "tipo_cliente.usuario_ult_mod.password"]

/-- One translation run selecting every valid `Cliente` path at once, with no
caller-supplied aliases. -/
def clienteFieldsRun : Except PyErr (List Clause × TransState) :=
  resolve_translation_of_clauses ClauseType.fieldC repoSchema clienteEntity "clientes"
    (clientePaths.map mkField) {}

/-- C6 (amended): translation is a pure function of its inputs, so translating
the same `FieldClause` list twice yields identical generated aliases; and for
the repository's own schema — where no table name coincides with a relation
field name and no name contains the reserved separators — all 25 valid
logical paths receive pairwise-distinct field aliases within one translated
query.  (Distinctness fails for crafted schemas, see the counterexample.) -/
theorem alias_stability_amended :
    (∀ (fields : List Clause) (ts : TransState),
       resolve_translation_of_clauses ClauseType.fieldC repoSchema clienteEntity "clientes"
         fields ts
         = resolve_translation_of_clauses ClauseType.fieldC repoSchema clienteEntity "clientes"
             fields ts)
    ∧ clienteFieldsRun.toOption.isSome = true
    ∧ ((clienteFieldsRun.toOption.getD ([], {})).1.map (fun c => c.field_alias)).Nodup := by
  refine ⟨fun _ _ => rfl, by decide, by decide⟩

/-- A minimal entity with one id column and one scalar column, used to state
the value-rendering behaviour one field at a time. -/
def scalarPairEntity : EntityType :=
  { className := "E1", id_field_name := "eid",
    model_dict := [("eid", {field_type := .scalarTy "int", name_in_db := "id",
                            is_primary_key := true}),
                   ("f", {field_type := .scalarTy "str", name_in_db := "f_db"})] }

/-- The attribute values of the Usuario instance of the C7 counterexample:
no id yet, username `u`, password `None`. -/
def usuarioNonePwdValues : List (String × PyVal) :=
  [("usuario_id", .pyNone), ("username", .pyStr "u"), ("password", .pyNone)]

/-- Counterexample to C7: the INSERT rendered by `BaseDao.insert` goes through
`BaseEntity.get_field_values_as_str`, which has NO `None` branch — a `None`
field value is emitted through `str(v)` as the Python text `None`, not as the
SQL literal `null`.  (The unused `mysqldaotools` helper does emit `null` for
the same entity.) -/
theorem insert_none_rendering_counterexample :
    insert_sql "usuarios" usuarioEntity usuarioNonePwdValues
      = .ok "insert into usuarios (id, username, password) values (null, \x27u\x27, None) "
    ∧ insert_sql "usuarios" usuarioEntity usuarioNonePwdValues
      ≠ .ok "insert into usuarios (id, username, password) values (null, \x27u\x27, null) "
    ∧ get_field_values_as_str_for_insert usuarioEntity usuarioNonePwdValues false
      = .ok "null, \x27u\x27, null" := by
  refine ⟨rfl, ?_, rfl⟩
  intro h
  rw [show insert_sql "usuarios" usuarioEntity usuarioNonePwdValues
        = .ok "insert into usuarios (id, username, password) values (null, \x27u\x27, None) "
      from rfl] at h
  exact absurd (Except.ok.inj h) (by decide)

/-- C7 (amended): in the values rendered for INSERT and UPDATE, a string field
value is enclosed in single quotes and a bytes value is decoded as Latin-1
and then enclosed in single quotes — in the entity methods used by
`BaseDao.insert`/`update` as well as in the standalone `mysqldaotools`
helpers; but a `None` value renders as the text `None` in the entity methods,
while only the (uncalled) `mysqldaotools` helpers emit the SQL literal
`null`. -/
theorem insert_update_value_rendering_amended :
    (∀ s : String,
       get_field_values_as_str scalarPairEntity [("eid", .pyNone), ("f", .pyStr s)] false
         = .ok ("null" ++ ", \x27" ++ s ++ "\x27"))
    ∧ (∀ bs : List Nat,
       get_field_values_as_str scalarPairEntity [("eid", .pyNone), ("f", .pyBytes bs)] false
         = .ok ("null" ++ ", \x27" ++ latin1Decode bs ++ "\x27"))
    ∧ get_field_values_as_str scalarPairEntity [("eid", .pyNone), ("f", .pyNone)] false
        = .ok "null, None"
    ∧ get_field_values_as_str_for_insert scalarPairEntity [("eid", .pyNone), ("f", .pyNone)] false
        = .ok "null, null"
    ∧ (∀ s : String,
       get_fields_with_value_as_str repoSchema scalarPairEntity [("eid", .pyInt 1), ("f", .pyStr s)]
         = .ok ("id = 1" ++ " , " ++ "f_db" ++ " = \x27" ++ s ++ "\x27"))
    ∧ (∀ bs : List Nat,
       get_fields_with_value_as_str repoSchema scalarPairEntity
           [("eid", .pyInt 1), ("f", .pyBytes bs)]
         = .ok ("id = 1" ++ " , " ++ "f_db" ++ " = \x27" ++ latin1Decode bs ++ "\x27"))
    ∧ get_fields_with_value_as_str repoSchema scalarPairEntity [("eid", .pyInt 1), ("f", .pyNone)]
        = .ok "id = 1 , f_db = None"
    ∧ get_fields_with_value_as_str_for_update repoSchema scalarPairEntity
        [("eid", .pyInt 1), ("f", .pyNone)]
        = .ok "id = 1 , f_db = null" :=
  ⟨fun _ => rfl, fun _ => rfl, rfl, rfl, fun _ => rfl, fun _ => rfl, rfl, rfl⟩

/-- C5 (amended): a clause whose SINGLE-segment logical field name is absent
from the owning entity type's metadata raises the `unknown_field`
`CustomException` whose arguments are the offending field and the owning
entity type's name, and the SELECT pipeline renders and executes no SQL for
that query.  (For dotted paths the second argument is a neighbouring path
segment instead of the entity — see the counterexample.) -/
theorem unknown_field_fault (schema : Schema) (base : EntityType) (table : String)
    (c : Clause) (rest : List Clause) (f : String)
    (hname : c.field_name = some f)
    (hsingle : pySplit dotChar f = [f])
    (hmiss : dictGet base.model_dict f = none) :
    (∀ ts : TransState,
       resolve_translation_of_clauses ClauseType.filterC schema base table (c :: rest) ts
         = .error (.customException "i18n_base_commonError_unknown_field" [f, base.className]))
    ∧ find_by_filtered_query_sql schema base table [] (c :: rest) [] [] [] none none
      = .error (.customException "i18n_base_commonError_unknown_field" [f, base.className]) := by
  have hone : ∀ ts : TransState, translate_clause ClauseType.filterC schema base table ts c
      = .error (.customException "i18n_base_commonError_unknown_field" [f, base.className]) := by
    intro ts
    unfold translate_clause
    simp [hname, hsingle, hmiss, pyOptStr]
    rfl
  have hlist : ∀ ts : TransState,
      resolve_translation_of_clauses ClauseType.filterC schema base table (c :: rest) ts
        = .error (.customException "i18n_base_commonError_unknown_field" [f, base.className]) := by
    intro ts
    unfold resolve_translation_of_clauses
    rw [hone ts]
  refine ⟨hlist, ?_⟩
  unfold find_by_filtered_query_sql
  simp [hlist]
  rfl

/-- The unknown single-segment filter used by the C5 witness. -/
def unknownFilter : Clause := mkFilter "xxx" EnumFilterTypes.EQUALS (.pyInt 1)

/-- Witness for the C5 theorem: filtering `Cliente` on the nonexistent field
`xxx` faults naming `xxx` and `Cliente`, and the pipeline yields no SQL. -/
theorem unknown_field_fault_witness :
    unknownFilter.field_name = some "xxx"
    ∧ pySplit dotChar "xxx" = ["xxx"]
    ∧ dictGet clienteEntity.model_dict "xxx" = none
    ∧ resolve_translation_of_clauses ClauseType.filterC repoSchema clienteEntity "clientes"
        [unknownFilter] {}
      = .error (.customException "i18n_base_commonError_unknown_field" ["xxx", "Cliente"])
    ∧ find_by_filtered_query_sql repoSchema clienteEntity "clientes" [] [unknownFilter]
        [] [] [] none none
      = .error (.customException "i18n_base_commonError_unknown_field" ["xxx", "Cliente"]) :=
  ⟨rfl, rfl, rfl,
   (unknown_field_fault repoSchema clienteEntity "clientes" unknownFilter [] "xxx"
      rfl rfl rfl).1 {},
   (unknown_field_fault repoSchema clienteEntity "clientes" unknownFilter [] "xxx"
      rfl rfl rfl).2⟩

/-- Counterexample to C5: for the dotted path `xxx.yyy` with `xxx` unknown in
`Cliente`, the fault's arguments are `xxx` and `yyy` — the LAST path segment,
through Python's negative indexing at `field_name_array[idx - 1]` with
`idx = 0` — and name neither the owning entity type (`Cliente`) nor its
table. -/
theorem unknown_field_dotted_counterexample :
    resolve_translation_of_clauses ClauseType.filterC repoSchema clienteEntity "clientes"
        [mkFilter "xxx.yyy" EnumFilterTypes.EQUALS (.pyInt 1)] {}
      = .error (.customException "i18n_base_commonError_unknown_field" ["xxx", "yyy"])
    ∧ find_by_filtered_query_sql repoSchema clienteEntity "clientes" []
        [mkFilter "xxx.yyy" EnumFilterTypes.EQUALS (.pyInt 1)] [] [] [] none none
      = .error (.customException "i18n_base_commonError_unknown_field" ["xxx", "yyy"])
    ∧ ("yyy" : String) ≠ "Cliente" ∧ ("yyy" : String) ≠ "clientes" :=
  ⟨rfl, rfl, by decide, by decide⟩

end PruebaRest
